import Mathlib

/-!
Verification of the daily-simulation core of the GDT trail game.

The definitions below are a shallow embedding of the Python sources under
src/game/ (player.py, party.py, resources.py, hunting.py, gathering.py).
Python floats are modelled as exact rationals, Python ints as Int,
Python lists as List, and dictionary lookups with a default as total
functions.  Randomness (random.randint / random.random / random.uniform /
weighted selection) is modelled by passing the drawn values in explicitly
as oracle parameters, so every function is a deterministic function of its
inputs and the draws, exactly as the source is a deterministic function of
its inputs and the stream of random numbers it consumes.
-/

namespace GDT

/-- Python int() truncation toward zero of a rational value. -/
def truncQ (x : ℚ) : Int := if x < 0 then -(Int.floor (-x)) else Int.floor x

/-- Role enum of player.py (lines 17-24). -/
inductive Role where
  | traveler
  | trailLeader
  | hunter
  | medic
  | scout
  | mechanic
deriving DecidableEq, Repr

/-- Condition enum of player.py (lines 27-38). -/
inductive Condition where
  | healthy
  | injured
  | hypothermia
  | dysentery
  | scurvy
  | frostbite
  | infection
  | exhausted
  | starving
  | dehydrated
deriving DecidableEq, Repr

/-- ROLE_BONUSES table of player.py (lines 42-85); the per-role dict is read
with .get(skill, 0), so unknown skill names yield 0. -/
def roleBonus (r : Role) (skill : String) : Int :=
  match r with
  | .traveler => 0
  | .trailLeader =>
      if skill = "navigation" then 25 else if skill = "scouting" then 10 else 0
  | .hunter =>
      if skill = "hunting" then 30 else if skill = "scouting" then 5 else 0
  | .medic => if skill = "healing" then 35 else 0
  | .scout =>
      if skill = "navigation" then 15 else if skill = "hunting" then 10
      else if skill = "scouting" then 40 else 0
  | .mechanic => if skill = "repair" then 40 else 0

/-- CONDITION_EFFECTS health_drain column of player.py (lines 88-149). -/
def conditionHealthDrain : Condition → Int
  | .healthy => 0
  | .injured => 2
  | .hypothermia => 5
  | .dysentery => 4
  | .scurvy => 2
  | .frostbite => 3
  | .infection => 6
  | .exhausted => 1
  | .starving => 5
  | .dehydrated => 6

/-- CONDITION_EFFECTS morale_drain column of player.py (lines 88-149). -/
def conditionMoraleDrain : Condition → Int
  | .healthy => 0
  | .injured => 3
  | .hypothermia => 5
  | .dysentery => 4
  | .scurvy => 3
  | .frostbite => 4
  | .infection => 5
  | .exhausted => 5
  | .starving => 8
  | .dehydrated => 6

/-- CONDITION_EFFECTS travel_speed column of player.py (lines 88-149). -/
def conditionTravelSpeed : Condition → Int
  | .healthy => 0
  | .injured => -15
  | .hypothermia => -25
  | .dysentery => -20
  | .scurvy => -10
  | .frostbite => -15
  | .infection => -20
  | .exhausted => -20
  | .starving => -25
  | .dehydrated => -30

/-- CONDITION_EFFECTS can_work column of player.py (lines 88-149). -/
def conditionCanWork : Condition → Bool
  | .healthy => true
  | .injured => true
  | .hypothermia => false
  | .dysentery => false
  | .scurvy => true
  | .frostbite => true
  | .infection => false
  | .exhausted => true
  | .starving => false
  | .dehydrated => false

/-- The Player class state of player.py (lines 156-193).  isAliveFlag models
the private attribute named with a leading underscore and "is_alive",
initialized to True in __init__. -/
structure Player where
  name : String
  role : Role
  health : Int
  maxHealth : Int
  morale : Int
  conditions : List Condition
  daysSurvived : Nat
  isAliveFlag : Bool
deriving DecidableEq, Repr

/-- Player.__init__ (player.py lines 170-193): health defaults to 100,
morale to 75, max_health is always 100, conditions start empty. -/
def mkPlayer (name : String) (role : Role) (health morale : Int) : Player :=
  { name := name, role := role, health := health, maxHealth := 100,
    morale := morale, conditions := [], daysSurvived := 0, isAliveFlag := true }

/-- Player.is_alive property (player.py lines 199-202). -/
def Player.isAlive (p : Player) : Bool :=
  p.isAliveFlag && decide (0 < p.health)

/-- Player.is_healthy property (player.py lines 204-207). -/
def Player.isHealthy (p : Player) : Bool :=
  p.conditions.length = 0

/-- Player.can_work property (player.py lines 209-219). -/
def Player.canWork (p : Player) : Bool :=
  p.isAlive && p.conditions.all conditionCanWork

/-- Player.get_skill_bonus (player.py lines 237-248). -/
def Player.getSkillBonus (p : Player) (skill : String) : Int :=
  roleBonus p.role skill

/-- Player.get_effective_skill (player.py lines 250-271): the Python float
product int(base * (1 + bonus/100) * (health/100) * (0.5 + morale/200)),
with the intermediate modifiers named as in the source. -/
def Player.getEffectiveSkill (p : Player) (skill : String) (baseValue : Int) : Int :=
  let bonus := p.getSkillBonus skill
  let healthModifier : ℚ := (p.health : ℚ) / 100
  let moraleModifier : ℚ := 1/2 + (p.morale : ℚ) / 200
  let effective : ℚ :=
    (baseValue : ℚ) * (1 + (bonus : ℚ) / 100) * healthModifier * moraleModifier
  truncQ effective

/-- Player.take_damage (player.py lines 277-300).  Returns the updated
player together with (actual damage taken, whether the player died). -/
def Player.takeDamage (p : Player) (amount : Int) : Player × Int × Bool :=
  if p.isAlive then
    let actualDamage := min amount p.health
    let newHealth := p.health - actualDamage
    if newHealth ≤ 0 then
      ({ p with health := 0, isAliveFlag := false }, actualDamage, true)
    else
      ({ p with health := newHealth }, actualDamage, false)
  else
    (p, 0, true)

/-- Player.heal (player.py lines 302-323).  Returns the updated player and
the actual amount healed; the medic bonus is int(amount * 1.35). -/
def Player.heal (p : Player) (amount : Int) (hasMedicBonus : Bool) : Player × Int :=
  if p.isAlive then
    let amount := if hasMedicBonus then truncQ ((amount : ℚ) * (27/20)) else amount
    let newHealth := min p.maxHealth (p.health + amount)
    ({ p with health := newHealth }, newHealth - p.health)
  else
    (p, 0)

/-- Player.add_condition (player.py lines 325-338). -/
def Player.addCondition (p : Player) (c : Condition) : Player × Bool :=
  if c ∉ p.conditions ∧ c ≠ Condition.healthy then
    ({ p with conditions := p.conditions ++ [c] }, true)
  else
    (p, false)

/-- Player.remove_condition (player.py lines 340-353); Python list.remove
deletes the first occurrence, as List.erase does. -/
def Player.removeCondition (p : Player) (c : Condition) : Player × Bool :=
  if c ∈ p.conditions then
    ({ p with conditions := p.conditions.erase c }, true)
  else
    (p, false)

/-- Player.has_condition (player.py lines 355-357). -/
def Player.hasCondition (p : Player) (c : Condition) : Bool :=
  c ∈ p.conditions

/-- Player.change_morale (player.py lines 363-374); the source also returns
the new morale, which callers in the modelled code never use. -/
def Player.changeMorale (p : Player) (amount : Int) : Player :=
  { p with morale := max 0 (min 100 (p.morale + amount)) }

/-- Player.boost_morale (player.py lines 376-378). -/
def Player.boostMorale (p : Player) (amount : Int) : Player :=
  p.changeMorale |amount|

/-- Player.reduce_morale (player.py lines 380-382). -/
def Player.reduceMorale (p : Player) (amount : Int) : Player :=
  p.changeMorale (-|amount|)

/-- The condition escalation/recovery loop at the end of Player.daily_update
(player.py lines 438-448): it iterates over a snapshot of the condition
list; for an Injured entry a 10% roll may add Infection, and for an
Exhausted or Injured entry an independent 5% roll may remove it.  The
boolean outcomes of the two rolls are supplied per snapshot index by the
oracles infectRoll and recoverRoll. -/
def condEscalationLoop (snapshot : List Condition) (idx : Nat)
    (infectRoll recoverRoll : Nat → Bool) (p : Player) : Player :=
  match snapshot with
  | [] => p
  | c :: rest =>
      let p := if c = Condition.injured ∧ infectRoll idx then
          (p.addCondition Condition.infection).1 else p
      let p := if (c = Condition.exhausted ∨ c = Condition.injured) ∧ recoverRoll idx then
          (p.removeCondition c).1 else p
      condEscalationLoop rest (idx + 1) infectRoll recoverRoll p

/-- Player.daily_update (player.py lines 388-450).  recoveryAmt stands for
random.randint(1, 3); infectRoll and recoverRoll are the per-condition
random.random() threshold outcomes.  Returns the updated player and the
died flag of the returned results dict. -/
def Player.dailyUpdate (p : Player) (recoveryAmt : Int)
    (infectRoll recoverRoll : Nat → Bool) : Player × Bool :=
  if p.isAlive then
    let p := { p with daysSurvived := p.daysSurvived + 1 }
    let totalHealthDrain := (p.conditions.map conditionHealthDrain).sum
    let totalMoraleDrain := (p.conditions.map conditionMoraleDrain).sum
    let step : Player × Bool :=
      if 0 < totalHealthDrain then
        let r := p.takeDamage totalHealthDrain
        (r.1, r.2.2)
      else (p, false)
    let p : Player := step.1
    let died : Bool := step.2
    let p : Player := if 0 < totalMoraleDrain then p.reduceMorale totalMoraleDrain else p
    let p : Player :=
      if p.isHealthy && decide (p.morale < 50) then p.boostMorale recoveryAmt else p
    let p : Player := condEscalationLoop p.conditions 0 infectRoll recoverRoll p
    (p, died)
  else
    (p, false)

/-- Player.get_travel_speed_modifier (player.py lines 456-474): the sum of
the conditions' travel_speed penalties, then -20 if health < 30, else -10
if health < 50. -/
def Player.travelSpeedModifier (p : Player) : Int :=
  let modifier := (p.conditions.map conditionTravelSpeed).sum
  if p.health < 30 then modifier - 20
  else if p.health < 50 then modifier - 10
  else modifier

/-- ResourceType enum of resources.py (lines 18-26). -/
inductive ResourceType where
  | food
  | water
  | ammunition
  | medical
  | clothing
  | tools
  | money
deriving DecidableEq, Repr

/-- The Resource dataclass of resources.py (lines 80-94). -/
structure Resource where
  resourceType : ResourceType
  quantity : ℚ
  maxCapacity : ℚ
  quality : ℚ
deriving DecidableEq, Repr

/-- Resource.add (resources.py lines 128-145): clamps to the space left
and returns the updated resource with the actual amount added. -/
def Resource.add (r : Resource) (amount : ℚ) : Resource × ℚ :=
  if amount ≤ 0 then (r, 0)
  else
    let spaceAvailable := r.maxCapacity - r.quantity
    let actualAdd := min amount spaceAvailable
    ({ r with quantity := r.quantity + actualAdd }, actualAdd)

/-- Resource.remove (resources.py lines 147-163): clamps to the quantity
present and returns the updated resource with the actual amount removed. -/
def Resource.remove (r : Resource) (amount : ℚ) : Resource × ℚ :=
  if amount ≤ 0 then (r, 0)
  else
    let actualRemove := min amount r.quantity
    ({ r with quantity := r.quantity - actualRemove }, actualRemove)

/-- Default capacities set by ResourceManager initialization
(resources.py lines 231-248). -/
def defaultCapacity : ResourceType → ℚ
  | .food => 500
  | .water => 100
  | .ammunition => 200
  | .medical => 50
  | .clothing => 20
  | .tools => 10
  | .money => 10000

/-- The ResourceManager of resources.py (lines 219-248): a mapping from
each resource type to its Resource record. -/
def ResourceManager : Type := ResourceType → Resource

/-- Freshly initialized manager: every resource at quantity 0 with its
default capacity and quality 100 (resources.py lines 226-248). -/
def initialResourceManager : ResourceManager := fun t =>
  { resourceType := t, quantity := 0, maxCapacity := defaultCapacity t, quality := 100 }

/-- ResourceManager.get_quantity (resources.py lines 258-261). -/
def ResourceManager.getQuantity (rm : ResourceManager) (t : ResourceType) : ℚ :=
  (rm t).quantity

/-- ResourceManager.remove (resources.py lines 270-275), updating the
stored resource and returning the actual amount removed. -/
def ResourceManager.removeRes (rm : ResourceManager) (t : ResourceType) (amount : ℚ) :
    ResourceManager × ℚ :=
  let r := (rm t).remove amount
  (fun u => if u = t then r.1 else rm u, r.2)

/-- ResourceManager.add (resources.py lines 263-268). -/
def ResourceManager.addRes (rm : ResourceManager) (t : ResourceType) (amount : ℚ) :
    ResourceManager × ℚ :=
  let r := (rm t).add amount
  (fun u => if u = t then r.1 else rm u, r.2)

/-- Rationing multipliers of calculate_daily_consumption (resources.py
lines 378-384); .get with default 1.0 for unknown levels. -/
def rationMultiplier (rationing : String) : ℚ :=
  if rationing = "filling" then 3/2
  else if rationing = "normal" then 1
  else if rationing = "meager" then 1/2
  else if rationing = "starving" then 1/4
  else 1

/-- Food column of TERRAIN_CONSUMPTION_MULTIPLIERS (resources.py lines
66-73); a terrain missing from the table contributes the default 1.0. -/
def terrainFoodMultiplier (terrain : String) : ℚ :=
  if terrain = "desert" then 1
  else if terrain = "plains" then 1
  else if terrain = "mountains" then 3/2
  else if terrain = "forest" then 1
  else if terrain = "tundra" then 3/2
  else if terrain = "river" then 1
  else 1

/-- Water column of TERRAIN_CONSUMPTION_MULTIPLIERS (resources.py lines
66-73); a terrain missing from the table contributes the default 1.0. -/
def terrainWaterMultiplier (terrain : String) : ℚ :=
  if terrain = "desert" then 2
  else if terrain = "plains" then 1
  else if terrain = "mountains" then 1
  else if terrain = "forest" then 4/5
  else if terrain = "tundra" then 1/2
  else if terrain = "river" then 1/2
  else 1

/-- Food entry of ResourceManager.calculate_daily_consumption (resources.py
lines 361-395): base rate 2 lbs x party size x ration x terrain. -/
def calcDailyFood (partySize : Nat) (terrain rationing : String) : ℚ :=
  2 * (partySize : ℚ) * rationMultiplier rationing * terrainFoodMultiplier terrain

/-- Water entry of ResourceManager.calculate_daily_consumption (resources.py
lines 361-395): base rate 1 gallon x party size x ration x terrain. -/
def calcDailyWater (partySize : Nat) (terrain rationing : String) : ℚ :=
  1 * (partySize : ℚ) * rationMultiplier rationing * terrainWaterMultiplier terrain

/-- Result of ResourceManager.consume_daily: the consumed amounts, and for
each of Food and Water whether a shortage entry was recorded (actual
removed < needed) together with its size.  Display warnings (strings) are
not modelled. -/
structure ConsumeOutcome where
  mgr : ResourceManager
  consumedFood : ℚ
  consumedWater : ℚ
  foodShort : Bool
  waterShort : Bool
  foodShortage : ℚ
  waterShortage : ℚ

/-- ResourceManager.consume_daily (resources.py lines 397-445): computes
the Food and Water needs, removes what it can (in the DAILY_CONSUMPTION
insertion order: Food first, then Water), and records a shortage for each
resource whose actual removal fell short of the need. -/
def ResourceManager.consumeDaily (rm : ResourceManager) (partySize : Nat)
    (terrain rationing : String) : ConsumeOutcome :=
  let foodNeeded := calcDailyFood partySize terrain rationing
  let waterNeeded := calcDailyWater partySize terrain rationing
  let rf := rm.removeRes ResourceType.food foodNeeded
  let rw := rf.1.removeRes ResourceType.water waterNeeded
  { mgr := rw.1,
    consumedFood := rf.2,
    consumedWater := rw.2,
    foodShort := decide (rf.2 < foodNeeded),
    waterShort := decide (rw.2 < waterNeeded),
    foodShortage := foodNeeded - rf.2,
    waterShortage := waterNeeded - rw.2 }

/-- MORALE_EVENTS table of party.py (lines 23-36); .get with default 0. -/
def MORALE_EVENTS (eventType : String) : Int :=
  if eventType = "death" then -25
  else if eventType = "successful_hunt" then 10
  else if eventType = "failed_hunt" then -5
  else if eventType = "rest_day" then 15
  else if eventType = "good_weather" then 5
  else if eventType = "bad_weather" then -5
  else if eventType = "found_supplies" then 10
  else if eventType = "low_food" then -10
  else if eventType = "no_food" then -20
  else if eventType = "reached_landmark" then 15
  else if eventType = "injury" then -10
  else if eventType = "healed" then 5
  else 0

/-- An entry of the Party death log (party.py lines 443-451). -/
structure DeathRecord where
  name : String
  role : Role
  day : Nat
  cause : String
  daysSurvived : Nat
deriving DecidableEq, Repr

/-- The Party class state of party.py (lines 43-68). -/
structure Party where
  name : String
  members : List Player
  resources : ResourceManager
  daysTraveled : Nat
  milesTraveled : Int
  currentRationing : String
  deathLog : List DeathRecord

/-- MAX_PARTY_SIZE (party.py line 20). -/
def MAX_PARTY_SIZE : Nat := 5

/-- Party.add_member (party.py lines 74-88). -/
def Party.addMember (p : Party) (player : Player) : Party × Bool :=
  if MAX_PARTY_SIZE ≤ p.members.length then (p, false)
  else ({ p with members := p.members ++ [player] }, true)

/-- Party.remove_member (party.py lines 90-103): physically deletes the
given player from the members list when present. -/
def Party.removeMember (p : Party) (player : Player) : Party × Bool :=
  if player ∈ p.members then
    ({ p with members := p.members.erase player }, true)
  else
    (p, false)

/-- Party.alive_members property (party.py lines 123-126). -/
def Party.aliveMembers (p : Party) : List Player :=
  p.members.filter Player.isAlive

/-- Party.alive_count property (party.py lines 133-136). -/
def Party.aliveCount (p : Party) : Nat :=
  p.aliveMembers.length

/-- Party.change_party_morale (party.py lines 238-261): every living
member receives the morale change; the dead are untouched. -/
def Party.changePartyMorale (p : Party) (amount : Int) : Party :=
  { p with members := p.members.map fun m =>
      if m.isAlive then m.changeMorale amount else m }

/-- Party.apply_morale_event (party.py lines 263-276). -/
def Party.applyMoraleEvent (p : Party) (eventType : String) : Party :=
  let amount := MORALE_EVENTS eventType
  if amount ≠ 0 then p.changePartyMorale amount else p

/-- Party.get_party_skill_bonus (party.py lines 185-200): the best skill
bonus among living members, starting from 0. -/
def Party.getPartySkillBonus (p : Party) (skill : String) : Int :=
  p.aliveMembers.foldl
    (fun best m => let bonus := m.getSkillBonus skill; if best < bonus then bonus else best) 0

/-- Party.get_travel_speed_modifier (party.py lines 308-332): -100 for an
all-dead party; otherwise the fold that keeps the most negative member
modifier starting from 0, then the int(worst * (1 - scout_bonus/200))
navigation scaling applied when scout_bonus > 0 and worst < 0. -/
def Party.getTravelSpeedModifier (p : Party) : Int :=
  if p.aliveMembers.isEmpty then -100
  else
    let worst : Int := p.aliveMembers.foldl
      (fun (w : Int) m => let modifier := m.travelSpeedModifier; if modifier < w then modifier else w) 0
    let scoutBonus := p.getPartySkillBonus "navigation"
    if 0 < scoutBonus ∧ worst < 0 then
      truncQ ((worst : ℚ) * (1 - (scoutBonus : ℚ) / 200))
    else worst

/-- Party._record_death (party.py lines 443-451): appends to the death log
and touches nothing else. -/
def Party.recordDeath (p : Party) (member : Player) (cause : String) : Party :=
  { p with deathLog := p.deathLog ++
      [{ name := member.name, role := member.role, day := p.daysTraveled,
         cause := cause, daysSurvived := member.daysSurvived }] }

/-- Steps 1-3 of Party.process_day (party.py lines 373-406): increment
days_traveled, consume daily resources when anyone is alive, then apply
the shortage reactions: a Food shortage applies the fixed no_food morale
event and adds Starving to every living member, while a Water shortage
only adds Dehydrated to every living member (no morale event is applied
for water; party.py lines 403-406).  The later steps of process_day
(decay, per-member daily updates, weather morale, low-food warning) do not
touch the shortage handling and are outside this phase. -/
def Party.processDayShortagePhase (p : Party) (terrain : String) : Party :=
  let p := { p with daysTraveled := p.daysTraveled + 1 }
  if 0 < p.aliveCount then
    let c := p.resources.consumeDaily p.aliveCount terrain p.currentRationing
    let p := { p with resources := c.mgr }
    let p :=
      if c.foodShort then
        let p := p.applyMoraleEvent "no_food"
        { p with members := p.members.map fun m =>
            if m.isAlive then (m.addCondition Condition.starving).1 else m }
      else p
    let p :=
      if c.waterShort then
        { p with members := p.members.map fun m =>
            if m.isAlive then (m.addCondition Condition.dehydrated).1 else m }
      else p
    p
  else p

/-- HuntingStyle enum of hunting.py (lines 18-22). -/
inductive HuntingStyle where
  | conservative
  | normal
  | aggressive
deriving DecidableEq, Repr

/-- GameAnimal enum of hunting.py (lines 25-34). -/
inductive GameAnimal where
  | rabbit
  | deer
  | elk
  | bison
  | bear
  | moose
  | mountainGoat
  | waterfowl
deriving DecidableEq, Repr

/-- ANIMAL_DATA food_yield ranges of hunting.py (lines 38-103). -/
def animalFoodYield : GameAnimal → Int × Int
  | .rabbit => (5, 10)
  | .waterfowl => (8, 15)
  | .deer => (30, 50)
  | .elk => (100, 150)
  | .mountainGoat => (40, 60)
  | .bison => (200, 400)
  | .moose => (150, 250)
  | .bear => (150, 200)

/-- ANIMAL_DATA difficulty values of hunting.py (lines 38-103). -/
def animalDifficulty : GameAnimal → Int
  | .rabbit => 20
  | .waterfowl => 35
  | .deer => 40
  | .elk => 50
  | .mountainGoat => 60
  | .bison => 55
  | .moose => 50
  | .bear => 65

/-- ANIMAL_DATA ammo_cost ranges of hunting.py (lines 38-103). -/
def animalAmmoCost : GameAnimal → Int × Int
  | .rabbit => (1, 2)
  | .waterfowl => (2, 4)
  | .deer => (2, 4)
  | .elk => (3, 6)
  | .mountainGoat => (2, 5)
  | .bison => (4, 8)
  | .moose => (3, 6)
  | .bear => (5, 10)

/-- ANIMAL_DATA danger values of hunting.py (lines 38-103). -/
def animalDanger : GameAnimal → Int
  | .rabbit => 0
  | .waterfowl => 0
  | .deer => 5
  | .elk => 10
  | .mountainGoat => 15
  | .bison => 20
  | .moose => 25
  | .bear => 40

/-- ANIMAL_DATA terrain lists of hunting.py (lines 38-103). -/
def animalTerrains : GameAnimal → List String
  | .rabbit => ["plains", "forest", "mountains", "desert"]
  | .waterfowl => ["plains", "forest"]
  | .deer => ["forest", "plains", "mountains"]
  | .elk => ["forest", "mountains"]
  | .mountainGoat => ["mountains", "tundra"]
  | .bison => ["plains"]
  | .moose => ["forest", "tundra"]
  | .bear => ["forest", "mountains"]

/-- TERRAIN_HUNTING_MODS of hunting.py (lines 106-112); default 0. -/
def terrainHuntingMod (terrain : String) : Int :=
  if terrain = "desert" then -30
  else if terrain = "plains" then 10
  else if terrain = "mountains" then -10
  else if terrain = "forest" then 20
  else if terrain = "tundra" then -20
  else 0

/-- WEATHER_HUNTING_MODS of hunting.py (lines 115-124); default 0. -/
def weatherHuntingMod (weather : String) : Int :=
  if weather = "clear" then 10
  else if weather = "cloudy" then 5
  else if weather = "rain" then -15
  else if weather = "storm" then -40
  else if weather = "hot" then -10
  else if weather = "cold" then -5
  else if weather = "snow" then -25
  else if weather = "blizzard" then -50
  else 0

/-- STYLE_MODIFIERS success_mod of hunting.py (lines 127-149). -/
def styleSuccessMod : HuntingStyle → Int
  | .conservative => -10
  | .normal => 0
  | .aggressive => 15

/-- STYLE_MODIFIERS yield_mod of hunting.py (lines 127-149). -/
def styleYieldMod : HuntingStyle → ℚ
  | .conservative => 7/10
  | .normal => 1
  | .aggressive => 13/10

/-- STYLE_MODIFIERS ammo_mod of hunting.py (lines 127-149). -/
def styleAmmoMod : HuntingStyle → ℚ
  | .conservative => 3/5
  | .normal => 1
  | .aggressive => 3/2

/-- STYLE_MODIFIERS danger_mod of hunting.py (lines 127-149). -/
def styleDangerMod : HuntingStyle → ℚ
  | .conservative => 3/10
  | .normal => 1
  | .aggressive => 2

/-- STYLE_MODIFIERS time_hours of hunting.py (lines 127-149). -/
def styleTimeHours : HuntingStyle → Int
  | .conservative => 2
  | .normal => 4
  | .aggressive => 6

/-- HuntingManager.get_available_animals (hunting.py lines 201-215),
iterating ANIMAL_DATA in its insertion order. -/
def getAvailableAnimals (terrain : String) : List GameAnimal :=
  [GameAnimal.rabbit, GameAnimal.waterfowl, GameAnimal.deer, GameAnimal.elk,
   GameAnimal.mountainGoat, GameAnimal.bison, GameAnimal.moose, GameAnimal.bear].filter
    (fun a => terrain ∈ animalTerrains a)

/-- HuntingManager.calculate_success_chance (hunting.py lines 275-310). -/
def calculateSuccessChance (animal : GameAnimal) (hunterSkill : Int)
    (terrain weather : String) (style : HuntingStyle) : Int :=
  let baseChance := hunterSkill - animalDifficulty animal + 50
  let totalChance := baseChance + terrainHuntingMod terrain
    + weatherHuntingMod weather + styleSuccessMod style
  max 5 (min 95 totalChance)

/-- The random draws consumed by one call of HuntingManager.hunt:
the outcome of the weighted animal selection (select_target_animal,
hunting.py lines 217-269, which returns None exactly when no animal is
available in the terrain), randint(*ammo_cost), the 1-100 success roll,
the 1-100 injury roll, the injury severity randint, and
randint(*food_yield). -/
structure HuntDraws where
  selectedAnimal : Option GameAnimal
  baseAmmo : Int
  successRoll : Int
  injuryRoll : Int
  injuryDamageRoll : Int
  baseYield : Int
deriving DecidableEq, Repr

/-- The HuntingResult dataclass of hunting.py (lines 156-167); the
narrative message/details strings are not modelled. -/
structure HuntingResult where
  success : Bool
  animal : Option GameAnimal
  foodGained : Int
  ammoUsed : Int
  hunterInjured : Bool
  injuryDamage : Int
  timeSpent : Int
deriving DecidableEq, Repr

/-- HuntingManager.hunt (hunting.py lines 312-467).  The effective skill
recomputed at lines 345-346 (clamped to [10,100], without the dead
equipment_bonus assignment of line 325, which is overwritten) feeds the
success chance.  With fewer than 2 rounds of ammunition or with no animal
found the hunt is a total failure; otherwise ammo use is
min(int(base_ammo * ammo_mod), ammo_available), success holds iff the roll
is at most the success chance, the injury check is an independent roll
against danger * danger_mod, and the food gained is
int(base_yield * yield_mod) on success and 0 on failure (line 434). -/
def hunt (terrain weather : String) (hunterSkill huntingBonus : Int)
    (ammoAvailable : Int) (style : HuntingStyle) (locationBonus : Int)
    (d : HuntDraws) : HuntingResult :=
  let effectiveSkill := max 10 (min 100 (hunterSkill + huntingBonus + locationBonus))
  if ammoAvailable < 2 then
    { success := false, animal := none, foodGained := 0, ammoUsed := 0,
      hunterInjured := false, injuryDamage := 0, timeSpent := 1 }
  else
    match d.selectedAnimal with
    | none =>
        { success := false, animal := none, foodGained := 0, ammoUsed := 0,
          hunterInjured := false, injuryDamage := 0,
          timeSpent := styleTimeHours style }
    | some animal =>
        let successChance := calculateSuccessChance animal effectiveSkill terrain weather style
        let ammoUsed := min (truncQ ((d.baseAmmo : ℚ) * styleAmmoMod style)) ammoAvailable
        let success := decide (d.successRoll ≤ successChance)
        let dangerChance : ℚ := (animalDanger animal : ℚ) * styleDangerMod style
        let hunterInjured := decide ((d.injuryRoll : ℚ) ≤ dangerChance)
        let injuryDamage := if hunterInjured then d.injuryDamageRoll else 0
        let foodGained := if success then truncQ ((d.baseYield : ℚ) * styleYieldMod style) else 0
        { success := success, animal := some animal, foodGained := foodGained,
          ammoUsed := ammoUsed, hunterInjured := hunterInjured,
          injuryDamage := injuryDamage, timeSpent := styleTimeHours style }

/-- ForagingType enum of gathering.py (lines 20-25). -/
inductive ForagingType where
  | berries
  | herbs
  | water
  | firewood
deriving DecidableEq, Repr

/-- FishingMethod enum of gathering.py (lines 28-32). -/
inductive FishingMethod where
  | line
  | net
  | spear
deriving DecidableEq, Repr

/-- FORAGING_YIELDS table of gathering.py (lines 36-62): per terrain the
inner dict holds ranges for berries, herbs and water only, so .get on a
firewood key or on an unknown terrain gives none. -/
def foragingYields (terrain : String) (t : ForagingType) : Option (ℚ × ℚ) :=
  if terrain = "desert" then
    match t with
    | .berries => some (0, 2)
    | .herbs => some (0, 1)
    | .water => some (0, 5)
    | .firewood => none
  else if terrain = "plains" then
    match t with
    | .berries => some (2, 8)
    | .herbs => some (1, 3)
    | .water => some (5, 15)
    | .firewood => none
  else if terrain = "mountains" then
    match t with
    | .berries => some (3, 10)
    | .herbs => some (2, 5)
    | .water => some (10, 25)
    | .firewood => none
  else if terrain = "forest" then
    match t with
    | .berries => some (5, 15)
    | .herbs => some (3, 8)
    | .water => some (10, 20)
    | .firewood => none
  else if terrain = "tundra" then
    match t with
    | .berries => some (1, 4)
    | .herbs => some (0, 2)
    | .water => some (5, 15)
    | .firewood => none
  else none

/-- WEATHER_FORAGING_MODIFIERS of gathering.py (lines 65-74); default 1.0. -/
def weatherForagingModifier (weather : String) : ℚ :=
  if weather = "clear" then 6/5
  else if weather = "cloudy" then 1
  else if weather = "rain" then 4/5
  else if weather = "storm" then 1/2
  else if weather = "hot" then 9/10
  else if weather = "cold" then 4/5
  else if weather = "snow" then 3/5
  else if weather = "blizzard" then 3/10
  else 1

/-- The string key a ForagingType enum member exposes as .value; used by
SEASON_FORAGING_MODIFIERS lookups (gathering.py line 235). -/
def foragingTypeValue : ForagingType → String
  | .berries => "berries"
  | .herbs => "herbs"
  | .water => "water"
  | .firewood => "firewood"

/-- SEASON_FORAGING_MODIFIERS of gathering.py (lines 77-82): keyed by
season then by the forage type value string, with default 1.0 for an
unknown season or a key (firewood) missing from the inner dicts. -/
def seasonForagingModifier (season : String) (t : ForagingType) : ℚ :=
  let key := foragingTypeValue t
  if season = "spring" then
    if key = "berries" then 1/2 else if key = "herbs" then 6/5
    else if key = "water" then 1 else 1
  else if season = "summer" then
    if key = "berries" then 3/2 else if key = "herbs" then 1
    else if key = "water" then 9/10 else 1
  else if season = "fall" then
    if key = "berries" then 6/5 else if key = "herbs" then 4/5
    else if key = "water" then 1 else 1
  else if season = "winter" then
    if key = "berries" then 1/10 else if key = "herbs" then 1/5
    else if key = "water" then 11/10 else 1
  else 1

/-- GatheringManager.can_forage (gathering.py lines 169-187): requires the
terrain to be in FORAGING_YIELDS, the forage type to have an entry there,
and the entry's maximum to be nonzero. -/
def canForage (terrain : String) (t : ForagingType) : Bool :=
  match foragingYields terrain t with
  | none => false
  | some y => decide (y.2 ≠ 0)

/-- The random draws consumed by one call of GatheringManager.forage:
random.uniform(min_yield, max_yield) and the 1-100 success roll. -/
structure ForageDraws where
  baseAmount : ℚ
  successRoll : Int
deriving DecidableEq, Repr

/-- The ForagingResult dataclass of gathering.py (lines 103-112); the
narrative message/details strings are not modelled. -/
structure ForagingResult where
  success : Bool
  forageType : ForagingType
  foodGained : Int
  waterGained : Int
  timeSpent : Int
deriving DecidableEq, Repr

/-- GatheringManager.forage (gathering.py lines 189-291).  When foraging
is possible the yield is int(base_amount * weather * season * skill *
party modifiers); the success roll is against 60 + skill/3, and on
failure the already truncated amount is further reduced to
int(final_amount * 0.3) (line 255).  The amount lands in water_gained for
water and in food_gained otherwise; water gathering takes 1 hour and the
rest 3 hours. -/
def forage (terrain weather season : String) (forageType : ForagingType)
    (foragerSkill : Int) (partySize : Nat) (d : ForageDraws) : ForagingResult :=
  if canForage terrain forageType then
    let weatherMod := weatherForagingModifier weather
    let seasonMod := seasonForagingModifier season forageType
    let skillMod : ℚ := 1/2 + (foragerSkill : ℚ) / 100
    let partyMod : ℚ := 1 + ((partySize : ℚ) - 1) * (3/10)
    let totalMod := weatherMod * seasonMod * skillMod * partyMod
    let finalAmount := truncQ (d.baseAmount * totalMod)
    let successChance : ℚ := 60 + (foragerSkill : ℚ) / 3
    let success := decide ((d.successRoll : ℚ) ≤ successChance)
    let finalAmount := if success then finalAmount else truncQ ((finalAmount : ℚ) * (3/10))
    if forageType = ForagingType.water then
      { success := success, forageType := forageType, foodGained := 0,
        waterGained := finalAmount, timeSpent := 1 }
    else
      { success := success, forageType := forageType, foodGained := finalAmount,
        waterGained := 0, timeSpent := 3 }
  else
    { success := false, forageType := forageType, foodGained := 0,
      waterGained := 0, timeSpent := 1 }

/-- The FISHING_YIELDS table of gathering.py (lines 85-89): its keys are
the strings "line", "net" and "spear". -/
def fishingYieldsTable (key : String) : Option (ℚ × ℚ) :=
  if key = "line" then some (2, 10)
  else if key = "net" then some (10, 25)
  else if key = "spear" then some (5, 15)
  else none

/-- gathering.py line 414 evaluates FISHING_YIELDS[method] where method is
a FishingMethod enum member, but the table's keys are plain strings; a
Python dict lookup compares keys by equality and an enum member equals no
string, so the lookup finds nothing for every method and raises KeyError.
This models that lookup: none for every method. -/
def fishingYieldsAtEnumKey (_ : FishingMethod) : Option (ℚ × ℚ) :=
  none

/-- WEATHER modifiers local to GatheringManager.fish (gathering.py lines
417-426); default 1.0. -/
def fishWeatherModifier (weather : String) : ℚ :=
  if weather = "clear" then 6/5
  else if weather = "cloudy" then 11/10
  else if weather = "rain" then 9/10
  else if weather = "storm" then 1/2
  else if weather = "hot" then 1
  else if weather = "cold" then 4/5
  else if weather = "snow" then 7/10
  else if weather = "blizzard" then 3/10
  else 1

/-- Base success rates local to GatheringManager.fish (gathering.py lines
437-441), keyed by the enum members themselves. -/
def fishBaseSuccess : FishingMethod → Int
  | .line => 70
  | .net => 85
  | .spear => 60

/-- GatheringManager.can_fish (gathering.py lines 354-373). -/
def canFish (waterAvailable hasTools : Bool) (method : FishingMethod) : Bool :=
  if !waterAvailable then false
  else if method = FishingMethod.net && !hasTools then false
  else true

/-- The random draws consumed by one call of GatheringManager.fish:
random.uniform over the yield range, the 1-100 success roll, and the
10% net-breakage random.random() outcome. -/
structure FishDraws where
  baseAmount : ℚ
  successRoll : Int
  breakRoll : Bool
deriving DecidableEq, Repr

/-- The FishingResult dataclass of gathering.py (lines 127-136); the
narrative message/details strings are not modelled. -/
structure FishingResult where
  success : Bool
  method : FishingMethod
  foodGained : Int
  timeSpent : Int
  equipmentBroken : Bool
deriving DecidableEq, Repr

/-- GatheringManager.fish (gathering.py lines 375-477).  The can_fish
failure paths return a result; past them, line 414 indexes the
string-keyed FISHING_YIELDS with the FishingMethod enum member, which
raises KeyError (modelled as none), so the remainder of the body - the
weather/skill modifiers, the success roll against base + skill/5 and the
int(final_amount * 0.2) failure penalty of line 447 - is unreachable.  It
is still transcribed below so the intended computation is visible. -/
def fish (waterAvailable : Bool) (method : FishingMethod) (fisherSkill : Int)
    (hasTools : Bool) (weather : String) (d : FishDraws) : Option FishingResult :=
  if canFish waterAvailable hasTools method then
    match fishingYieldsAtEnumKey method with
    | none => none
    | some _baseYields =>
        let weatherMod := fishWeatherModifier weather
        let skillMod : ℚ := 1/2 + (fisherSkill : ℚ) / 100
        let totalMod := weatherMod * skillMod
        let finalAmount := truncQ (d.baseAmount * totalMod)
        let successChance : ℚ := (fishBaseSuccess method : ℚ) + (fisherSkill : ℚ) / 5
        let success := decide ((d.successRoll : ℚ) ≤ successChance)
        let finalAmount := if success then finalAmount else truncQ ((finalAmount : ℚ) * (1/5))
        let equipmentBroken := decide (method = FishingMethod.net) && d.breakRoll
        some { success := success, method := method, foodGained := finalAmount,
               timeSpent := 4, equipmentBroken := equipmentBroken }
  else
    some { success := false, method := method, foodGained := 0,
           timeSpent := 1, equipmentBroken := false }

/-- The effective-skill formula as the specification states it:
baseValue x (1 + roleBonus/100) x (health/100) x (0.5 + morale/200),
truncated to an integer.  Written from the spec wording, to be compared
with Player.getEffectiveSkill, which is written from the source. -/
def specEffectiveSkill (p : Player) (skill : String) (baseValue : Int) : Int :=
  truncQ ((baseValue : ℚ) * (1 + (p.getSkillBonus skill : ℚ) / 100)
    * ((p.health : ℚ) / 100) * (1/2 + (p.morale : ℚ) / 200))

/-- The traveler state invariant: health is nonnegative (health ∈ [0,100]
in the data model, and max_health is the constructor constant 100), and a
traveler that is not alive has health exactly 0. -/
def PlayerInv (p : Player) : Prop :=
  0 ≤ p.health ∧ 0 ≤ p.maxHealth ∧ (p.isAlive = false → p.health = 0)

instance (p : Player) : Decidable (PlayerInv p) := by
  unfold PlayerInv; infer_instance

/-- One mutating Player operation of the lifecycle claim: take_damage,
heal, or daily_update (with its random draws). -/
inductive TravelerOp where
  | damage (amount : Int)
  | healBy (amount : Int) (medic : Bool)
  | daily (recovery : Int) (infectRoll recoverRoll : Nat → Bool)

/-- Apply one operation, discarding the returned report values. -/
def applyOp (p : Player) : TravelerOp → Player
  | .damage a => (p.takeDamage a).1
  | .healBy a m => (p.heal a m).1
  | .daily r f g => (p.dailyUpdate r f g).1

/-- Apply a sequence of operations in order. -/
def applyOps (p : Player) : List TravelerOp → Player
  | [] => p
  | op :: rest => applyOps (applyOp p op) rest

/-- Total yield of a foraging result (exactly one of the two fields is
ever nonzero). -/
def ForagingResult.totalGained (r : ForagingResult) : Int :=
  r.foodGained + r.waterGained

/-- A resource manager holding the given Food and Water quantities and
nothing else, at the default capacities. -/
def stockedResources (foodQty waterQty : ℚ) : ResourceManager := fun t =>
  { resourceType := t,
    quantity := if t = ResourceType.food then foodQty
      else if t = ResourceType.water then waterQty else 0,
    maxCapacity := defaultCapacity t, quality := 100 }

/-- Concrete traveler for the water-shortage run. -/
def c1Member : Player := mkPlayer "Ada" Role.traveler 100 75

/-- One-member party with plenty of food but no water. -/
def c1WaterShortParty : Party :=
  { name := "Expedition", members := [c1Member], resources := stockedResources 100 0,
    daysTraveled := 0, milesTraveled := 0, currentRationing := "normal", deathLog := [] }

/-- One-member party with plenty of water but no food. -/
def c1FoodShortParty : Party :=
  { c1WaterShortParty with resources := stockedResources 0 50 }

/-- Concrete hunt draws: deer found, roll of 100 against a 90% chance. -/
def c2HuntDrawsFail : HuntDraws :=
  { selectedAnimal := some GameAnimal.deer, baseAmmo := 3, successRoll := 100,
    injuryRoll := 100, injuryDamageRoll := 7, baseYield := 40 }

/-- Concrete resource stock: 10 lbs of food within a 500 lb capacity. -/
def c3FoodStock : Resource :=
  { resourceType := ResourceType.food, quantity := 10, maxCapacity := 500, quality := 100 }

/-- Concrete healthy traveler for lifecycle witnesses. -/
def c4Traveler : Player := mkPlayer "Eli" Role.medic 100 75

/-- Concrete dead traveler for the no-resurrection witness. -/
def c4DeadTraveler : Player :=
  { mkPlayer "Sam" Role.traveler 100 75 with health := 0, isAliveFlag := false }

/-- Concrete Hunter-role traveler of the effective-skill scenario:
health 100, morale 75, no conditions. -/
def hunterScenario : Player := mkPlayer "Thomas" Role.hunter 100 75

/-- Concrete trail leader (navigation bonus 25), healthy. -/
def c6Leader : Player := mkPlayer "Lena" Role.trailLeader 100 75

/-- Concrete injured traveler (travel speed modifier -15). -/
def c6Injured : Player :=
  { mkPlayer "Ivo" Role.traveler 100 75 with conditions := [Condition.injured] }

/-- Concrete two-member party whose worst member modifier is -15 and whose
best navigation bonus is 25. -/
def c6Party : Party :=
  { name := "Expedition", members := [c6Leader, c6Injured],
    resources := initialResourceManager, daysTraveled := 0, milesTraveled := 0,
    currentRationing := "normal", deathLog := [] }

/-- Concrete traveler for the removal counterexample. -/
def c7Member : Player := mkPlayer "Bo" Role.traveler 100 75

/-- Concrete one-member party for the removal counterexample. -/
def c7Party : Party :=
  { name := "Expedition", members := [c7Member], resources := initialResourceManager,
    daysTraveled := 0, milesTraveled := 0, currentRationing := "normal", deathLog := [] }

/-- Concrete traveler carrying one condition for the condition-set witness. -/
def c9Traveler : Player :=
  { mkPlayer "Kim" Role.scout 100 75 with conditions := [Condition.injured] }

/-- Concrete dead traveler: health 0, alive flag cleared. -/
def c10DeadTraveler : Player :=
  { mkPlayer "Gus" Role.traveler 100 75 with health := 0, isAliveFlag := false }

/-- Integer truncation of an integer value is that value. -/
theorem truncQ_intCast (n : Int) : truncQ (n : ℚ) = n := by
  unfold truncQ
  split_ifs with h
  · rw [← Int.cast_neg, Int.floor_intCast]; omega
  · exact Int.floor_intCast n

/-- Truncation of a nonnegative rational is nonnegative. -/
theorem truncQ_nonneg (x : ℚ) (hx : 0 ≤ x) : 0 ≤ truncQ x := by
  unfold truncQ
  rw [if_neg (by linarith)]
  exact Int.le_floor.mpr (by exact_mod_cast hx)

/-- C3: for every Resource with 0 ≤ quantity ≤ max_capacity, both add and
remove keep 0 ≤ quantity ≤ max_capacity (the capacity itself is
untouched), and each returns the clamped delta that was actually applied:
min(amount, space left) for add and min(amount, quantity) for remove, and
0 for a non-positive request. -/
theorem resource_add_remove_invariant (r : Resource) (h0 : 0 ≤ r.quantity)
    (hc : r.quantity ≤ r.maxCapacity) (amount : ℚ) :
    (0 ≤ (r.add amount).1.quantity ∧
      (r.add amount).1.quantity ≤ (r.add amount).1.maxCapacity ∧
      (r.add amount).1.maxCapacity = r.maxCapacity ∧
      (r.add amount).2 =
        (if amount ≤ 0 then 0 else min amount (r.maxCapacity - r.quantity))) ∧
    (0 ≤ (r.remove amount).1.quantity ∧
      (r.remove amount).1.quantity ≤ (r.remove amount).1.maxCapacity ∧
      (r.remove amount).1.maxCapacity = r.maxCapacity ∧
      (r.remove amount).2 = (if amount ≤ 0 then 0 else min amount r.quantity)) := by
  unfold Resource.add Resource.remove
  split_ifs with h
  · exact ⟨⟨h0, hc, rfl, rfl⟩, ⟨h0, hc, rfl, rfl⟩⟩
  · push_neg at h
    have hmin1 : min amount (r.maxCapacity - r.quantity) ≤ r.maxCapacity - r.quantity :=
      min_le_right _ _
    have hmin2 : 0 ≤ min amount (r.maxCapacity - r.quantity) :=
      le_min (le_of_lt h) (by linarith)
    have hmin3 : min amount r.quantity ≤ r.quantity := min_le_right _ _
    have hmin4 : 0 ≤ min amount r.quantity := le_min (le_of_lt h) h0
    refine ⟨⟨?_, ?_, rfl, rfl⟩, ⟨?_, ?_, rfl, rfl⟩⟩
    · show 0 ≤ r.quantity + min amount (r.maxCapacity - r.quantity)
      linarith
    · show r.quantity + min amount (r.maxCapacity - r.quantity) ≤ r.maxCapacity
      linarith
    · show 0 ≤ r.quantity - min amount r.quantity
      linarith
    · show r.quantity - min amount r.quantity ≤ r.maxCapacity
      linarith

/-- Witness for the resource invariant: a 10 lb food stock adding 600 lbs
(clamped to the 490 lbs of space) and removing 25 lbs (clamped to 10). -/
theorem resource_add_remove_invariant_witness :
    (0 ≤ c3FoodStock.quantity ∧ c3FoodStock.quantity ≤ c3FoodStock.maxCapacity) ∧
    ((0 ≤ (c3FoodStock.add 600).1.quantity ∧
      (c3FoodStock.add 600).1.quantity ≤ (c3FoodStock.add 600).1.maxCapacity ∧
      (c3FoodStock.add 600).1.maxCapacity = c3FoodStock.maxCapacity ∧
      (c3FoodStock.add 600).2 =
        (if (600 : ℚ) ≤ 0 then 0
         else min 600 (c3FoodStock.maxCapacity - c3FoodStock.quantity))) ∧
     (0 ≤ (c3FoodStock.remove 600).1.quantity ∧
      (c3FoodStock.remove 600).1.quantity ≤ (c3FoodStock.remove 600).1.maxCapacity ∧
      (c3FoodStock.remove 600).1.maxCapacity = c3FoodStock.maxCapacity ∧
      (c3FoodStock.remove 600).2 =
        (if (600 : ℚ) ≤ 0 then 0 else min 600 c3FoodStock.quantity))) :=
  ⟨by decide, resource_add_remove_invariant c3FoodStock (by decide) (by decide) 600⟩

/-- C5: get_effective_skill computes exactly the specification formula
baseValue x (1 + roleBonus/100) x (health/100) x (0.5 + morale/200),
truncated to an integer, and the scenario Traveler (health 100, morale 75,
no conditions, Hunter role with hunting bonus +30) gets
getEffectiveSkill("hunting", 50) = 56. -/
theorem effective_skill_formula :
    (∀ (p : Player) (skill : String) (baseValue : Int),
        p.getEffectiveSkill skill baseValue = specEffectiveSkill p skill baseValue) ∧
    hunterScenario.getEffectiveSkill "hunting" 50 = 56 := by
  constructor
  · intro p skill baseValue
    rfl
  · unfold Player.getEffectiveSkill Player.getSkillBonus hunterScenario mkPlayer
    norm_num [roleBonus, truncQ]

/-- C10: take_damage on a traveler that is not alive returns
(actual damage 0, died true) and returns the state entirely unchanged,
whatever the damage amount. -/
theorem takeDamage_dead_noop (p : Player) (h : p.isAlive = false) (amount : Int) :
    p.takeDamage amount = (p, 0, true) := by
  unfold Player.takeDamage
  rw [h]
  rfl

/-- Witness: a dead traveler hit for 37 damage is untouched. -/
theorem takeDamage_dead_noop_witness :
    c10DeadTraveler.isAlive = false ∧
    c10DeadTraveler.takeDamage 37 = (c10DeadTraveler, 0, true) :=
  ⟨by decide, takeDamage_dead_noop c10DeadTraveler (by decide) 37⟩

/-- The terrain food multiplier is positive for every terrain string. -/
theorem terrainFoodMultiplier_pos (terrain : String) :
    0 < terrainFoodMultiplier terrain := by
  unfold terrainFoodMultiplier
  split_ifs <;> norm_num

/-- C8: for any fixed party size of at least one and any terrain, daily
Food consumption is strictly ordered by rationing level:
starving < meager < normal < filling. -/
theorem rationing_strictly_ordered (size : Nat) (h : 1 ≤ size) (terrain : String) :
    calcDailyFood size terrain "starving" < calcDailyFood size terrain "meager" ∧
    calcDailyFood size terrain "meager" < calcDailyFood size terrain "normal" ∧
    calcDailyFood size terrain "normal" < calcDailyFood size terrain "filling" := by
  have hT : 0 < terrainFoodMultiplier terrain := terrainFoodMultiplier_pos terrain
  have hs : (1 : ℚ) ≤ (size : ℚ) := by exact_mod_cast h
  have hsT : 0 < (size : ℚ) * terrainFoodMultiplier terrain := by positivity
  have e1 : rationMultiplier "starving" = 1/4 := rfl
  have e2 : rationMultiplier "meager" = 1/2 := rfl
  have e3 : rationMultiplier "normal" = 1 := rfl
  have e4 : rationMultiplier "filling" = 3/2 := rfl
  unfold calcDailyFood
  rw [e1, e2, e3, e4]
  refine ⟨by nlinarith, by nlinarith, by nlinarith⟩

/-- Witness: the rationing order at party size 4 on the plains. -/
theorem rationing_strictly_ordered_witness :
    1 ≤ 4 ∧
    (calcDailyFood 4 "plains" "starving" < calcDailyFood 4 "plains" "meager" ∧
     calcDailyFood 4 "plains" "meager" < calcDailyFood 4 "plains" "normal" ∧
     calcDailyFood 4 "plains" "normal" < calcDailyFood 4 "plains" "filling") :=
  ⟨by decide, rationing_strictly_ordered 4 (by decide) "plains"⟩

/-- C9: when a traveler's condition list is duplicate-free and free of
Healthy, it stays that way under add_condition and remove_condition;
add_condition of a present condition or of Healthy returns false and
changes nothing (so adding twice in a row changes state once, the second
call being a no-op), and remove_condition of an absent condition returns
false and changes nothing. -/
theorem condition_set_invariant (p : Player) (hnd : p.conditions.Nodup)
    (hh : Condition.healthy ∉ p.conditions) :
    (∀ c, (p.addCondition c).1.conditions.Nodup ∧
          Condition.healthy ∉ (p.addCondition c).1.conditions) ∧
    (∀ c, (c ∈ p.conditions ∨ c = Condition.healthy) → p.addCondition c = (p, false)) ∧
    (∀ c, (p.addCondition c).1.addCondition c = ((p.addCondition c).1, false)) ∧
    (∀ c, c ∉ p.conditions → p.removeCondition c = (p, false)) ∧
    (∀ c, (p.removeCondition c).1.conditions.Nodup ∧
          Condition.healthy ∉ (p.removeCondition c).1.conditions) := by
  have habs : ∀ c, (c ∈ p.conditions ∨ c = Condition.healthy) → p.addCondition c = (p, false) := by
    intro c hc
    unfold Player.addCondition
    rw [if_neg]
    tauto
  refine ⟨?_, habs, ?_, ?_, ?_⟩
  · intro c
    unfold Player.addCondition
    split_ifs with h
    · constructor
      · simpa [List.nodup_append] using ⟨hnd, h.1⟩
      · simp only [List.mem_append, List.mem_singleton]
        rintro (hmem | heq)
        · exact hh hmem
        · exact h.2 heq.symm
    · exact ⟨hnd, hh⟩
  · intro c
    by_cases hc : c ∈ p.conditions ∨ c = Condition.healthy
    · rw [habs c hc]
      exact habs c hc
    · push_neg at hc
      have hfst : p.addCondition c = ({ p with conditions := p.conditions ++ [c] }, true) := by
        unfold Player.addCondition
        rw [if_pos ⟨hc.1, hc.2⟩]
      rw [hfst]
      unfold Player.addCondition
      rw [if_neg (by simp)]
  · intro c hc
    unfold Player.removeCondition
    rw [if_neg hc]
  · intro c
    unfold Player.removeCondition
    split_ifs with h
    · exact ⟨hnd.erase c, fun hmem => hh (List.mem_of_mem_erase hmem)⟩
    · exact ⟨hnd, hh⟩

/-- Witness for the condition-set invariant on a traveler carrying only
Injured: adding Exhausted keeps the set clean, re-adding Injured is a
no-op returning false, a double add of Exhausted changes state once,
and removing the absent Scurvy is a no-op returning false. -/
theorem condition_set_invariant_witness :
    c9Traveler.conditions.Nodup ∧ Condition.healthy ∉ c9Traveler.conditions ∧
    ((c9Traveler.addCondition Condition.exhausted).1.conditions.Nodup ∧
      Condition.healthy ∉ (c9Traveler.addCondition Condition.exhausted).1.conditions) ∧
    c9Traveler.addCondition Condition.injured = (c9Traveler, false) ∧
    (c9Traveler.addCondition Condition.exhausted).1.addCondition Condition.exhausted
      = ((c9Traveler.addCondition Condition.exhausted).1, false) ∧
    c9Traveler.removeCondition Condition.scurvy = (c9Traveler, false) ∧
    ((c9Traveler.removeCondition Condition.injured).1.conditions.Nodup ∧
      Condition.healthy ∉ (c9Traveler.removeCondition Condition.injured).1.conditions) := by
  refine ⟨by decide, by decide, ?_, ?_, ?_, ?_, ?_⟩
  · exact (condition_set_invariant c9Traveler (by decide) (by decide)).1 Condition.exhausted
  · exact (condition_set_invariant c9Traveler (by decide) (by decide)).2.1
      Condition.injured (Or.inl (by decide))
  · exact (condition_set_invariant c9Traveler (by decide) (by decide)).2.2.1 Condition.exhausted
  · exact (condition_set_invariant c9Traveler (by decide) (by decide)).2.2.2.1
      Condition.scurvy (by decide)
  · exact (condition_set_invariant c9Traveler (by decide) (by decide)).2.2.2.2 Condition.injured

/-- Adding a condition does not touch health. -/
@[simp] theorem addCondition_health (p : Player) (c : Condition) :
    (p.addCondition c).1.health = p.health := by
  unfold Player.addCondition; split_ifs <;> rfl

/-- Adding a condition does not touch max health. -/
@[simp] theorem addCondition_maxHealth (p : Player) (c : Condition) :
    (p.addCondition c).1.maxHealth = p.maxHealth := by
  unfold Player.addCondition; split_ifs <;> rfl

/-- Adding a condition does not touch the alive flag. -/
@[simp] theorem addCondition_isAliveFlag (p : Player) (c : Condition) :
    (p.addCondition c).1.isAliveFlag = p.isAliveFlag := by
  unfold Player.addCondition; split_ifs <;> rfl

/-- Adding a condition does not touch morale. -/
@[simp] theorem addCondition_morale (p : Player) (c : Condition) :
    (p.addCondition c).1.morale = p.morale := by
  unfold Player.addCondition; split_ifs <;> rfl

/-- Adding a condition does not touch the name. -/
@[simp] theorem addCondition_name (p : Player) (c : Condition) :
    (p.addCondition c).1.name = p.name := by
  unfold Player.addCondition; split_ifs <;> rfl

/-- Adding a condition does not change aliveness. -/
@[simp] theorem addCondition_isAlive (p : Player) (c : Condition) :
    (p.addCondition c).1.isAlive = p.isAlive := by
  unfold Player.isAlive; rw [addCondition_health, addCondition_isAliveFlag]

/-- Removing a condition does not touch health. -/
@[simp] theorem removeCondition_health (p : Player) (c : Condition) :
    (p.removeCondition c).1.health = p.health := by
  unfold Player.removeCondition; split_ifs <;> rfl

/-- Removing a condition does not touch max health. -/
@[simp] theorem removeCondition_maxHealth (p : Player) (c : Condition) :
    (p.removeCondition c).1.maxHealth = p.maxHealth := by
  unfold Player.removeCondition; split_ifs <;> rfl

/-- Removing a condition does not touch the alive flag. -/
@[simp] theorem removeCondition_isAliveFlag (p : Player) (c : Condition) :
    (p.removeCondition c).1.isAliveFlag = p.isAliveFlag := by
  unfold Player.removeCondition; split_ifs <;> rfl

/-- Removing a condition does not touch the name. -/
@[simp] theorem removeCondition_name (p : Player) (c : Condition) :
    (p.removeCondition c).1.name = p.name := by
  unfold Player.removeCondition; split_ifs <;> rfl

/-- The condition escalation loop does not touch health. -/
@[simp] theorem condLoop_health (s : List Condition) (f g : Nat → Bool) :
    ∀ (i : Nat) (p : Player), (condEscalationLoop s i f g p).health = p.health := by
  induction s with
  | nil => intro i p; rfl
  | cons c rest ih =>
      intro i p
      simp only [condEscalationLoop]
      rw [ih]
      split_ifs <;> simp

/-- The condition escalation loop does not touch max health. -/
@[simp] theorem condLoop_maxHealth (s : List Condition) (f g : Nat → Bool) :
    ∀ (i : Nat) (p : Player), (condEscalationLoop s i f g p).maxHealth = p.maxHealth := by
  induction s with
  | nil => intro i p; rfl
  | cons c rest ih =>
      intro i p
      simp only [condEscalationLoop]
      rw [ih]
      split_ifs <;> simp

/-- The condition escalation loop does not touch the alive flag. -/
@[simp] theorem condLoop_isAliveFlag (s : List Condition) (f g : Nat → Bool) :
    ∀ (i : Nat) (p : Player), (condEscalationLoop s i f g p).isAliveFlag = p.isAliveFlag := by
  induction s with
  | nil => intro i p; rfl
  | cons c rest ih =>
      intro i p
      simp only [condEscalationLoop]
      rw [ih]
      split_ifs <;> simp

/-- The traveler invariant only looks at health, max health, and the
alive flag, so it transports along operations preserving them. -/
theorem playerInv_congr (p q : Player) (h1 : q.health = p.health)
    (h2 : q.maxHealth = p.maxHealth) (h3 : q.isAliveFlag = p.isAliveFlag) :
    PlayerInv p → PlayerInv q := by
  intro hp
  unfold PlayerInv Player.isAlive at *
  rw [h1, h2, h3]
  exact hp

/-- Aliveness unpacked: the flag is set and health is positive. -/
theorem isAlive_iff (p : Player) :
    p.isAlive = true ↔ p.isAliveFlag = true ∧ 0 < p.health := by
  unfold Player.isAlive
  simp

/-- take_damage preserves the traveler invariant for every amount. -/
theorem takeDamage_inv (p : Player) (hp : PlayerInv p) (a : Int) :
    PlayerInv (p.takeDamage a).1 := by
  obtain ⟨h0, hM, hAlive⟩ := hp
  unfold Player.takeDamage
  dsimp only
  split_ifs with h1 h2
  · exact ⟨le_refl 0, hM, fun _ => rfl⟩
  · push_neg at h2
    refine ⟨le_of_lt h2, hM, ?_⟩
    intro hfalse
    exfalso
    rw [isAlive_iff] at h1
    unfold Player.isAlive at hfalse
    dsimp only at hfalse
    simp only [h1.1, Bool.true_and, decide_eq_false_iff_not, not_lt] at hfalse
    exact absurd h2 (not_lt.mpr hfalse)
  · exact ⟨h0, hM, hAlive⟩

/-- Raising health to min(max_health, health + delta) with a nonnegative
delta from a live state keeps the invariant. -/
theorem healAux (p : Player) (h0 : 0 ≤ p.health) (hM : 0 ≤ p.maxHealth)
    (hflag : p.isAliveFlag = true) (a2 : Int) (ha2 : 0 ≤ a2) :
    PlayerInv { p with health := min p.maxHealth (p.health + a2) } := by
  have hmin0 : 0 ≤ min p.maxHealth (p.health + a2) := le_min hM (by omega)
  refine ⟨hmin0, hM, ?_⟩
  intro hfalse
  unfold Player.isAlive at hfalse
  dsimp only at hfalse
  simp only [hflag, Bool.true_and, decide_eq_false_iff_not, not_lt] at hfalse
  show min p.maxHealth (p.health + a2) = 0
  omega

/-- heal with a nonnegative amount preserves the traveler invariant. -/
theorem heal_inv (p : Player) (hp : PlayerInv p) (a : Int) (ha : 0 ≤ a) (m : Bool) :
    PlayerInv (p.heal a m).1 := by
  obtain ⟨h0, hM, hAlive⟩ := hp
  have htr : 0 ≤ truncQ ((a : ℚ) * (27/20)) :=
    truncQ_nonneg _ (mul_nonneg (by exact_mod_cast ha) (by norm_num))
  unfold Player.heal
  dsimp only
  split_ifs with h1 hm
  · exact healAux p h0 hM ((isAlive_iff p).mp h1).1 _ htr
  · exact healAux p h0 hM ((isAlive_iff p).mp h1).1 _ ha
  · exact ⟨h0, hM, hAlive⟩

/-- daily_update preserves the traveler invariant for every random draw. -/
theorem dailyUpdate_inv (p : Player) (hp : PlayerInv p) (r : Int) (f g : Nat → Bool) :
    PlayerInv (p.dailyUpdate r f g).1 := by
  have hp1 : PlayerInv { p with daysSurvived := p.daysSurvived + 1 } :=
    playerInv_congr p _ rfl rfl rfl hp
  unfold Player.dailyUpdate
  split_ifs with h1
  · dsimp only
    split_ifs <;>
      exact playerInv_congr _ _ (condLoop_health _ _ _ _ _) (condLoop_maxHealth _ _ _ _ _)
        (condLoop_isAliveFlag _ _ _ _ _)
        (by first
          | exact takeDamage_inv _ hp1 _
          | exact hp1)
  · exact hp

/-- Every one of the three operations is a state no-op on a traveler that
is not alive. -/
theorem applyOp_dead (p : Player) (h : p.isAlive = false) (op : TravelerOp) :
    applyOp p op = p := by
  cases op with
  | damage a => simp [applyOp, Player.takeDamage, h]
  | healBy a m => simp [applyOp, Player.heal, h]
  | daily r f g => simp [applyOp, Player.dailyUpdate, h]

/-- No sequence of operations changes a traveler that is not alive. -/
theorem applyOps_dead (p : Player) (h : p.isAlive = false) (ops : List TravelerOp) :
    applyOps p ops = p := by
  induction ops with
  | nil => rfl
  | cons op rest ih =>
      show applyOps (applyOp p op) rest = p
      rw [applyOp_dead p h op]
      exact ih

/-- C4: for a traveler satisfying the health invariant, take_damage never
drives health below 0 and the damage actually applied from a live state is
clamped to current health (min of amount and health); the invariant -
including health == 0 iff not alive - is preserved by take_damage, by heal
with a nonnegative amount, and by daily_update with any draws; and a
traveler that is not alive is never changed (in particular never made
alive again) by any sequence of take_damage / heal / daily_update calls. -/
theorem traveler_lifecycle (p : Player) (hp : PlayerInv p) :
    (∀ a, 0 ≤ (p.takeDamage a).1.health ∧ PlayerInv (p.takeDamage a).1) ∧
    (p.isAlive = true → ∀ a, (p.takeDamage a).2.1 = min a p.health) ∧
    (∀ a m, 0 ≤ a → PlayerInv (p.heal a m).1) ∧
    (∀ r f g, PlayerInv (p.dailyUpdate r f g).1) ∧
    (p.health = 0 ↔ p.isAlive = false) ∧
    (p.isAlive = false → ∀ ops, applyOps p ops = p) := by
  refine ⟨?_, ?_, ?_, ?_, ?_, ?_⟩
  · intro a
    have h := takeDamage_inv p hp a
    exact ⟨h.1, h⟩
  · intro h a
    unfold Player.takeDamage
    rw [if_pos h]
    dsimp only
    split_ifs <;> rfl
  · intro a m ha
    exact heal_inv p hp a ha m
  · intro r f g
    exact dailyUpdate_inv p hp r f g
  · constructor
    · intro h0
      unfold Player.isAlive
      simp [h0]
    · exact hp.2.2
  · intro hdead ops
    exact applyOps_dead p hdead ops

/-- Witness for the lifecycle theorem: a healthy traveler hit for 30,
healed for 15, updated for a day; and a dead traveler left unchanged by a
damage-then-heal sequence. -/
theorem traveler_lifecycle_witness :
    PlayerInv c4Traveler ∧
    (0 ≤ (c4Traveler.takeDamage 30).1.health ∧ PlayerInv (c4Traveler.takeDamage 30).1) ∧
    (c4Traveler.takeDamage 30).2.1 = min 30 c4Traveler.health ∧
    PlayerInv (c4Traveler.heal 15 true).1 ∧
    PlayerInv (c4Traveler.dailyUpdate 2 (fun _ => false) (fun _ => false)).1 ∧
    (c4Traveler.health = 0 ↔ c4Traveler.isAlive = false) ∧
    (PlayerInv c4DeadTraveler ∧
      applyOps c4DeadTraveler [TravelerOp.damage 5, TravelerOp.healBy 10 false,
        TravelerOp.daily 2 (fun _ => false) (fun _ => false)] = c4DeadTraveler) :=
  ⟨by decide,
   (traveler_lifecycle c4Traveler (by decide)).1 30,
   (traveler_lifecycle c4Traveler (by decide)).2.1 (by decide) 30,
   (traveler_lifecycle c4Traveler (by decide)).2.2.1 15 true (by decide),
   (traveler_lifecycle c4Traveler (by decide)).2.2.2.1 2 (fun _ => false) (fun _ => false),
   (traveler_lifecycle c4Traveler (by decide)).2.2.2.2.1,
   by decide,
   (traveler_lifecycle c4DeadTraveler (by decide)).2.2.2.2.2 (by decide) _⟩

/-- The running-minimum fold is bounded by its start value and by every
element of the list. -/
theorem foldlKeepMin_le (l : List Int) (a : Int) :
    l.foldl (fun w x => if x < w then x else w) a ≤ a ∧
    ∀ x ∈ l, l.foldl (fun w x => if x < w then x else w) a ≤ x := by
  induction l generalizing a with
  | nil => simp
  | cons y ys ih =>
      simp only [List.foldl_cons]
      constructor
      · exact le_trans (ih (if y < a then y else a)).1 (by split <;> omega)
      · intro x hx
        rcases List.mem_cons.mp hx with rfl | hx
        · exact le_trans (ih (if x < a then x else a)).1 (by split <;> omega)
        · exact (ih _).2 x hx

/-- The running-minimum fold returns its start value or some element. -/
theorem foldlKeepMin_mem (l : List Int) (a : Int) :
    l.foldl (fun w x => if x < w then x else w) a = a ∨
    l.foldl (fun w x => if x < w then x else w) a ∈ l := by
  induction l generalizing a with
  | nil => simp
  | cons y ys ih =>
      simp only [List.foldl_cons]
      rcases ih (if y < a then y else a) with h | h
      · by_cases hy : y < a
        · right
          rw [h, if_pos hy]
          exact List.mem_cons_self y ys
        · left
          rw [h, if_neg hy]
      · right
        exact List.mem_cons_of_mem y h

/-- The running-maximum fold is bounded below by its start value and by
every element of the list. -/
theorem foldlKeepMax_ge (l : List Int) (a : Int) :
    a ≤ l.foldl (fun b x => if b < x then x else b) a ∧
    ∀ x ∈ l, x ≤ l.foldl (fun b x => if b < x then x else b) a := by
  induction l generalizing a with
  | nil => simp
  | cons y ys ih =>
      simp only [List.foldl_cons]
      constructor
      · exact le_trans (by split <;> omega) (ih (if a < y then y else a)).1
      · intro x hx
        rcases List.mem_cons.mp hx with rfl | hx
        · exact le_trans (by split <;> omega) (ih (if a < x then x else a)).1
        · exact (ih _).2 x hx

/-- Every condition's travel speed penalty is nonpositive. -/
theorem conditionTravelSpeed_nonpos (c : Condition) : conditionTravelSpeed c ≤ 0 := by
  cases c <;> decide

/-- The summed condition penalties are nonpositive. -/
theorem sumTravelSpeed_nonpos (l : List Condition) :
    (l.map conditionTravelSpeed).sum ≤ 0 := by
  induction l with
  | nil => simp
  | cons c cs ih =>
      simp only [List.map_cons, List.sum_cons]
      have := conditionTravelSpeed_nonpos c
      omega

/-- A traveler's individual travel speed modifier is never positive. -/
theorem travelSpeedModifier_nonpos (p : Player) : p.travelSpeedModifier ≤ 0 := by
  unfold Player.travelSpeedModifier
  dsimp only
  have := sumTravelSpeed_nonpos p.conditions
  split_ifs <;> omega

/-- Every role bonus is nonnegative. -/
theorem roleBonus_nonneg (r : Role) (s : String) : 0 ≤ roleBonus r s := by
  unfold roleBonus
  cases r <;> (try split_ifs) <;> norm_num

/-- C6: for a party with at least one living member, the travel speed
modifier is computed from the minimum (most negative) of the living
members' individual modifiers - never an average - scaled, exactly when
that minimum is negative, by (1 - navBonus/200) with the party's best
navigation bonus (which bounds every living member's navigation bonus),
truncated toward zero; a party whose members all have modifier 0 gets no
scaling. -/
theorem party_speed_is_minimum (p : Party) (h : p.aliveMembers ≠ []) :
    ∃ w ∈ p.aliveMembers.map Player.travelSpeedModifier,
      (∀ x ∈ p.aliveMembers.map Player.travelSpeedModifier, w ≤ x) ∧
      (∀ m ∈ p.aliveMembers,
        m.getSkillBonus "navigation" ≤ p.getPartySkillBonus "navigation") ∧
      p.getTravelSpeedModifier =
        (if w < 0 then
          truncQ ((w : ℚ) * (1 - (p.getPartySkillBonus "navigation" : ℚ) / 200))
        else w) := by
  have hfold :
      p.aliveMembers.foldl
        (fun w m => if m.travelSpeedModifier < w then m.travelSpeedModifier else w) 0 =
      (p.aliveMembers.map Player.travelSpeedModifier).foldl
        (fun w x => if x < w then x else w) 0 := by
    rw [List.foldl_map]
  have hfoldB :
      p.getPartySkillBonus "navigation" =
      (p.aliveMembers.map (fun m => m.getSkillBonus "navigation")).foldl
        (fun b x => if b < x then x else b) 0 := by
    unfold Party.getPartySkillBonus
    rw [List.foldl_map]
  set r : Int := (p.aliveMembers.map Player.travelSpeedModifier).foldl
    (fun w x => if x < w then x else w) 0 with hrdef
  have hle := foldlKeepMin_le (p.aliveMembers.map Player.travelSpeedModifier) 0
  have hmem := foldlKeepMin_mem (p.aliveMembers.map Player.travelSpeedModifier) 0
  have hnonpos : ∀ x ∈ p.aliveMembers.map Player.travelSpeedModifier, x ≤ 0 := by
    intro x hx
    obtain ⟨m, _, rfl⟩ := List.mem_map.mp hx
    exact travelSpeedModifier_nonpos m
  have hgeB := foldlKeepMax_ge (p.aliveMembers.map (fun m => m.getSkillBonus "navigation")) 0
  have hbonus0 : 0 ≤ p.getPartySkillBonus "navigation" := by
    rw [hfoldB]; exact hgeB.1
  have hrmem : r ∈ p.aliveMembers.map Player.travelSpeedModifier := by
    rcases hmem with h0 | h0
    · obtain ⟨m, hm⟩ := List.exists_mem_of_ne_nil p.aliveMembers h
      have hy : m.travelSpeedModifier ∈ p.aliveMembers.map Player.travelSpeedModifier :=
        List.mem_map_of_mem Player.travelSpeedModifier hm
      have hy0 : m.travelSpeedModifier ≤ 0 := hnonpos _ hy
      have hry := hle.2 _ hy
      have hyz : m.travelSpeedModifier = 0 := le_antisymm hy0 (h0 ▸ hry)
      rw [hrdef, h0, ← hyz]
      exact hy
    · exact h0
  refine ⟨r, hrmem, hle.2, ?_, ?_⟩
  · intro m hm
    rw [hfoldB]
    exact hgeB.2 _ (List.mem_map_of_mem (fun m => m.getSkillBonus "navigation") hm)
  · unfold Party.getTravelSpeedModifier
    rw [if_neg (by simpa [List.isEmpty_iff] using h)]
    dsimp only
    rw [hfold]
    by_cases hw : r < 0
    · by_cases hb : 0 < p.getPartySkillBonus "navigation"
      · rw [if_pos ⟨hb, hw⟩, if_pos hw]
      · have hb0 : p.getPartySkillBonus "navigation" = 0 :=
          le_antisymm (not_lt.mp hb) hbonus0
        rw [if_neg (by tauto), if_pos hw, hb0]
        have hone : ((r : Int) : ℚ) * (1 - ((0 : Int) : ℚ) / 200) = ((r : Int) : ℚ) := by
          push_cast
          ring
        rw [hone, truncQ_intCast]
    · rw [if_neg (by tauto), if_neg hw]

/-- Witness: a party of a healthy trail leader (navigation +25) and an
injured traveler (modifier -15) has a living member, so the minimum
characterization applies. -/
theorem party_speed_is_minimum_witness :
    c6Party.aliveMembers ≠ [] ∧
    (∃ w ∈ c6Party.aliveMembers.map Player.travelSpeedModifier,
      (∀ x ∈ c6Party.aliveMembers.map Player.travelSpeedModifier, w ≤ x) ∧
      (∀ m ∈ c6Party.aliveMembers,
        m.getSkillBonus "navigation" ≤ c6Party.getPartySkillBonus "navigation") ∧
      c6Party.getTravelSpeedModifier =
        (if w < 0 then
          truncQ ((w : ℚ) * (1 - (c6Party.getPartySkillBonus "navigation" : ℚ) / 200))
        else w)) :=
  ⟨by decide, party_speed_is_minimum c6Party (by decide)⟩

/-- Bumping days_traveled leaves the members untouched. -/
@[simp] theorem members_setDaysTraveled (p : Party) (n : Nat) :
    ({ p with daysTraveled := n } : Party).members = p.members := rfl

/-- Bumping days_traveled leaves the resources untouched. -/
@[simp] theorem resources_setDaysTraveled (p : Party) (n : Nat) :
    ({ p with daysTraveled := n } : Party).resources = p.resources := rfl

/-- Bumping days_traveled leaves the rationing untouched. -/
@[simp] theorem currentRationing_setDaysTraveled (p : Party) (n : Nat) :
    ({ p with daysTraveled := n } : Party).currentRationing = p.currentRationing := rfl

/-- Bumping days_traveled leaves the living members untouched. -/
@[simp] theorem aliveMembers_setDaysTraveled (p : Party) (n : Nat) :
    ({ p with daysTraveled := n } : Party).aliveMembers = p.aliveMembers := rfl

/-- Bumping days_traveled leaves the alive count untouched. -/
@[simp] theorem aliveCount_setDaysTraveled (p : Party) (n : Nat) :
    ({ p with daysTraveled := n } : Party).aliveCount = p.aliveCount := rfl

/-- Changing morale does not change aliveness. -/
@[simp] theorem changeMorale_isAlive (p : Player) (a : Int) :
    (p.changeMorale a).isAlive = p.isAlive := rfl

/-- Changing morale does not change the conditions. -/
@[simp] theorem changeMorale_conditions (p : Player) (a : Int) :
    (p.changeMorale a).conditions = p.conditions := rfl

/-- Changing morale does not change the name. -/
@[simp] theorem changeMorale_name (p : Player) (a : Int) :
    (p.changeMorale a).name = p.name := rfl

/-- When daily consumption reports a water shortage and no food shortage,
the shortage phase of process_day maps every living member through
add_condition(Dehydrated) and does nothing else to the members. -/
theorem shortagePhase_water_only (p : Party) (terrain : String)
    (halive : 0 < p.aliveCount)
    (hfood : (p.resources.consumeDaily p.aliveCount terrain p.currentRationing).foodShort
      = false)
    (hwater : (p.resources.consumeDaily p.aliveCount terrain p.currentRationing).waterShort
      = true) :
    (p.processDayShortagePhase terrain).members =
      p.members.map (fun m =>
        if m.isAlive then (m.addCondition Condition.dehydrated).1 else m) := by
  simp only [Party.processDayShortagePhase, aliveCount_setDaysTraveled,
    resources_setDaysTraveled, currentRationing_setDaysTraveled, members_setDaysTraveled]
  rw [if_pos halive, hfood, hwater]
  simp

/-- When daily consumption reports a food shortage and no water shortage,
the shortage phase of process_day gives every living member the fixed
no_food morale event (-20) and then Starving, and does nothing else to
the members. -/
theorem shortagePhase_food_only (p : Party) (terrain : String)
    (halive : 0 < p.aliveCount)
    (hfood : (p.resources.consumeDaily p.aliveCount terrain p.currentRationing).foodShort
      = true)
    (hwater : (p.resources.consumeDaily p.aliveCount terrain p.currentRationing).waterShort
      = false) :
    (p.processDayShortagePhase terrain).members =
      p.members.map (fun m =>
        if m.isAlive then ((m.changeMorale (-20)).addCondition Condition.starving).1
        else m) := by
  simp only [Party.processDayShortagePhase, aliveCount_setDaysTraveled,
    resources_setDaysTraveled, currentRationing_setDaysTraveled, members_setDaysTraveled]
  rw [if_pos halive, hfood, hwater]
  simp only [Party.applyMoraleEvent, MORALE_EVENTS, Party.changePartyMorale,
    String.reduceEq, reduceIte]
  norm_num
  intro m _
  by_cases hA : m.isAlive = true <;> simp [hA]

/-- Concrete evaluation: with food in stock but no water, the daily
consumption of a one-member party reports only a water shortage. -/
theorem c1_waterFlags :
    ((stockedResources 100 0).consumeDaily 1 "plains" "normal").foodShort = false ∧
    ((stockedResources 100 0).consumeDaily 1 "plains" "normal").waterShort = true := by
  unfold ResourceManager.consumeDaily ResourceManager.removeRes Resource.remove
    stockedResources calcDailyFood calcDailyWater rationMultiplier
    terrainFoodMultiplier terrainWaterMultiplier
  simp only [String.reduceEq, reduceIte, reduceCtorEq]
  norm_num

/-- Concrete evaluation: with water in stock but no food, the daily
consumption of a one-member party reports only a food shortage. -/
theorem c1_foodFlags :
    ((stockedResources 0 50).consumeDaily 1 "plains" "normal").foodShort = true ∧
    ((stockedResources 0 50).consumeDaily 1 "plains" "normal").waterShort = false := by
  unfold ResourceManager.consumeDaily ResourceManager.removeRes Resource.remove
    stockedResources calcDailyFood calcDailyWater rationMultiplier
    terrainFoodMultiplier terrainWaterMultiplier
  simp only [String.reduceEq, reduceIte, reduceCtorEq]
  norm_num

/-- C1 counterexample: a one-member party (morale 75) that runs a day with
only a water shortage ends with Dehydrated added but morale unchanged at
75, while the same member running a day with only a food shortage ends
with Starving added and morale dropped to 55 by the fixed no_food morale
event: the water shortage is not handled "exactly as" the food shortage,
because no morale event is applied for water. -/
theorem water_shortage_counterexample :
    (c1WaterShortParty.processDayShortagePhase "plains").members.map Player.morale = [75] ∧
    (c1WaterShortParty.processDayShortagePhase "plains").members.map Player.conditions
      = [[Condition.dehydrated]] ∧
    (c1FoodShortParty.processDayShortagePhase "plains").members.map Player.morale = [55] ∧
    (c1FoodShortParty.processDayShortagePhase "plains").members.map Player.conditions
      = [[Condition.starving]] ∧
    c1WaterShortParty.members.map Player.morale = [75] := by
  have hw : (c1WaterShortParty.processDayShortagePhase "plains").members =
      c1WaterShortParty.members.map (fun m =>
        if m.isAlive then (m.addCondition Condition.dehydrated).1 else m) :=
    shortagePhase_water_only c1WaterShortParty "plains" (by decide)
      c1_waterFlags.1 c1_waterFlags.2
  have hf : (c1FoodShortParty.processDayShortagePhase "plains").members =
      c1FoodShortParty.members.map (fun m =>
        if m.isAlive then ((m.changeMorale (-20)).addCondition Condition.starving).1
        else m) :=
    shortagePhase_food_only c1FoodShortParty "plains" (by decide)
      c1_foodFlags.1 c1_foodFlags.2
  rw [hw, hf]
  decide

/-- C1 amended: when the daily consumption reports a Water shortage (and
no Food shortage), process_day adds Dehydrated to every living member but
applies no morale event - every member's morale is unchanged - unlike a
Food shortage, which applies the fixed no_food morale event besides
adding Starving to every living member. -/
theorem water_shortage_amended (p : Party) (terrain : String)
    (halive : 0 < p.aliveCount)
    (hfood : (p.resources.consumeDaily p.aliveCount terrain p.currentRationing).foodShort
      = false)
    (hwater : (p.resources.consumeDaily p.aliveCount terrain p.currentRationing).waterShort
      = true) :
    (p.processDayShortagePhase terrain).members =
      p.members.map (fun m =>
        if m.isAlive then (m.addCondition Condition.dehydrated).1 else m) ∧
    (p.processDayShortagePhase terrain).members.map Player.morale =
      p.members.map Player.morale := by
  have hmem := shortagePhase_water_only p terrain halive hfood hwater
  refine ⟨hmem, ?_⟩
  rw [hmem, List.map_map]
  refine List.map_congr_left ?_
  intro m _
  by_cases hA : m.isAlive = true <;> simp [Function.comp, hA]

/-- Witness for the amended water-shortage behavior at the concrete
one-member party with an empty water stock. -/
theorem water_shortage_amended_witness :
    0 < c1WaterShortParty.aliveCount ∧
    ((c1WaterShortParty.processDayShortagePhase "plains").members =
      c1WaterShortParty.members.map (fun m =>
        if m.isAlive then (m.addCondition Condition.dehydrated).1 else m) ∧
     (c1WaterShortParty.processDayShortagePhase "plains").members.map Player.morale =
      c1WaterShortParty.members.map Player.morale) :=
  ⟨by decide, water_shortage_amended c1WaterShortParty "plains" (by decide)
    c1_waterFlags.1 c1_waterFlags.2⟩

/-- record_death leaves the members list untouched. -/
@[simp] theorem recordDeath_members (p : Party) (m : Player) (c : String) :
    (p.recordDeath m c).members = p.members := rfl

/-- record_death appends exactly one entry to the death log. -/
@[simp] theorem recordDeath_deathLog (p : Party) (m : Player) (c : String) :
    (p.recordDeath m c).deathLog = p.deathLog ++
      [{ name := m.name, role := m.role, day := p.daysTraveled, cause := c,
         daysSurvived := m.daysSurvived }] := rfl

/-- Mapping members through a live-only transformation that keeps names
keeps the list of names. -/
theorem map_name_if_alive (l : List Player) (f : Player → Player)
    (hf : ∀ m, (f m).name = m.name) :
    (l.map (fun m => if m.isAlive then f m else m)).map Player.name
      = l.map Player.name := by
  rw [List.map_map]
  refine List.map_congr_left ?_
  intro m _
  by_cases hA : m.isAlive = true <;> simp [Function.comp, hA, hf]

/-- Mapping the living members through add_condition keeps the names. -/
theorem map_name_addCondition (l : List Player) (c : Condition) :
    (l.map (fun m => if m.isAlive then (m.addCondition c).1 else m)).map Player.name
      = l.map Player.name :=
  map_name_if_alive _ _ (fun m => addCondition_name m c)

/-- A party-wide morale event keeps every member's name in place. -/
theorem applyMoraleEvent_names (p : Party) (e : String) :
    (p.applyMoraleEvent e).members.map Player.name = p.members.map Player.name := by
  unfold Party.applyMoraleEvent Party.changePartyMorale
  dsimp only
  split_ifs
  · exact map_name_if_alive _ _ (fun m => rfl)
  · rfl

/-- The consumption/shortage phase of process_day keeps the same members,
in the same order, whatever shortages occur. -/
theorem shortagePhase_names (p : Party) (terrain : String) :
    (p.processDayShortagePhase terrain).members.map Player.name
      = p.members.map Player.name := by
  simp only [Party.processDayShortagePhase, aliveCount_setDaysTraveled,
    resources_setDaysTraveled, currentRationing_setDaysTraveled, members_setDaysTraveled]
  split_ifs <;>
    simp only [map_name_addCondition, applyMoraleEvent_names]

/-- C7 counterexample: Party.remove_member physically deletes a present
member: on a one-member party it returns true and leaves the members list
empty, contradicting "no operation of the Party ever physically deletes a
member from the list". -/
theorem remove_member_deletes_counterexample :
    c7Member ∈ c7Party.members ∧
    (c7Party.removeMember c7Member).2 = true ∧
    (c7Party.removeMember c7Member).1.members = [] := by
  decide

/-- C7 amended: death never removes a Traveler from the members list -
_record_death only appends a {name, role, day, cause, days survived}
entry to the death log, the daily consumption/shortage processing keeps
the same members in order, and alive queries merely filter the list - but
the Party.remove_member operation, when handed a present member, does
physically delete it from the list (returning true). -/
theorem death_never_removes_amended (p : Party) (m : Player) (cause : String) :
    (p.recordDeath m cause).members = p.members ∧
    (p.recordDeath m cause).deathLog = p.deathLog ++
      [{ name := m.name, role := m.role, day := p.daysTraveled, cause := cause,
         daysSurvived := m.daysSurvived }] ∧
    (∀ terrain, (p.processDayShortagePhase terrain).members.map Player.name
      = p.members.map Player.name) ∧
    p.aliveMembers = p.members.filter Player.isAlive ∧
    (m ∈ p.members →
      (p.removeMember m).1.members = p.members.erase m ∧ (p.removeMember m).2 = true) := by
  refine ⟨rfl, rfl, shortagePhase_names p, rfl, ?_⟩
  intro hm
  unfold Party.removeMember
  rw [if_pos hm]
  exact ⟨rfl, rfl⟩

/-- Witness for the amended death/removal behavior on a concrete
one-member party. -/
theorem death_never_removes_amended_witness :
    (c7Party.recordDeath c7Member "conditions").members = c7Party.members ∧
    (c7Party.recordDeath c7Member "conditions").deathLog = c7Party.deathLog ++
      [{ name := c7Member.name, role := c7Member.role, day := c7Party.daysTraveled,
         cause := "conditions", daysSurvived := c7Member.daysSurvived }] ∧
    (c7Party.processDayShortagePhase "plains").members.map Player.name
      = c7Party.members.map Player.name ∧
    c7Party.aliveMembers = c7Party.members.filter Player.isAlive ∧
    c7Member ∈ c7Party.members ∧
    (c7Party.removeMember c7Member).1.members = c7Party.members.erase c7Member ∧
    (c7Party.removeMember c7Member).2 = true :=
  ⟨(death_never_removes_amended c7Party c7Member "conditions").1,
   (death_never_removes_amended c7Party c7Member "conditions").2.1,
   (death_never_removes_amended c7Party c7Member "conditions").2.2.1 "plains",
   (death_never_removes_amended c7Party c7Member "conditions").2.2.2.1,
   by decide,
   ((death_never_removes_amended c7Party c7Member "conditions").2.2.2.2 (by decide)).1,
   ((death_never_removes_amended c7Party c7Member "conditions").2.2.2.2 (by decide)).2⟩

/-- C2 counterexample: a hunt in the forest on a clear day (skill 50, 10
rounds, normal style) finds a deer (success chance 90); with a success
roll of 100 the hunt fails and the food gained is exactly 0, while the
same draws with a winning roll would have yielded 40 lbs - the failed
attempt does not yield the claimed 20-30% fraction of the success yield,
it yields nothing. -/
theorem hunt_failure_zero_counterexample :
    (hunt "forest" "clear" 50 0 10 HuntingStyle.normal 0 c2HuntDrawsFail).animal
        = some GameAnimal.deer ∧
    (hunt "forest" "clear" 50 0 10 HuntingStyle.normal 0 c2HuntDrawsFail).success = false ∧
    (hunt "forest" "clear" 50 0 10 HuntingStyle.normal 0 c2HuntDrawsFail).foodGained = 0 ∧
    (hunt "forest" "clear" 50 0 10 HuntingStyle.normal 0
        { c2HuntDrawsFail with successRoll := 1 }).success = true ∧
    (hunt "forest" "clear" 50 0 10 HuntingStyle.normal 0
        { c2HuntDrawsFail with successRoll := 1 }).foodGained = 40 := by
  unfold hunt c2HuntDrawsFail calculateSuccessChance animalDifficulty terrainHuntingMod
    weatherHuntingMod styleSuccessMod styleYieldMod styleAmmoMod styleDangerMod
    styleTimeHours animalDanger truncQ
  simp only [String.reduceEq, reduceIte, reduceCtorEq]
  norm_num

/-- C2 amended: when the success roll fails on an attempted activity, the
yield depends on the activity: hunting yields zero food even though game
was found and ammunition was spent; foraging yields the 30% fractional
penalty int(successYield x 0.3) of what the same draws would have yielded
on success; and fishing as written never reaches its 20% penalty, because
the yield-table lookup indexes the string-keyed FISHING_YIELDS with the
FishingMethod enum member and fails (KeyError) whenever the can_fish
preconditions pass. -/
theorem failure_yield_amended :
    (∀ (terrain weather : String) (hs hb ammo : Int) (style : HuntingStyle) (lb : Int)
        (d : HuntDraws) (a : GameAnimal),
      2 ≤ ammo → d.selectedAnimal = some a →
      (hunt terrain weather hs hb ammo style lb d).success = false →
      (hunt terrain weather hs hb ammo style lb d).foodGained = 0) ∧
    (∀ (terrain weather season : String) (ft : ForagingType) (skill : Int)
        (psize : Nat) (d : ForageDraws),
      canForage terrain ft = true → 0 ≤ skill →
      (forage terrain weather season ft skill psize d).success = false →
      (forage terrain weather season ft skill psize d).totalGained =
        truncQ (((forage terrain weather season ft skill psize
          { d with successRoll := 1 }).totalGained : ℚ) * (3/10))) ∧
    (∀ (w : Bool) (m : FishingMethod) (skill : Int) (tools : Bool) (weather : String)
        (d : FishDraws),
      canFish w tools m = true →
      fish w m skill tools weather d = none) := by
  refine ⟨?_, ?_, ?_⟩
  · intro terrain weather hs hb ammo style lb d a hammo hsel hfail
    unfold hunt at hfail ⊢
    rw [if_neg (by omega)] at hfail ⊢
    rw [hsel] at hfail ⊢
    dsimp only at hfail ⊢
    rw [hfail]
    simp
  · intro terrain weather season ft skill psize d hcan hskill hfail
    have hS : decide ((((1 : Int) : ℚ)) ≤ 60 + (skill : ℚ) / 3) = true := by
      rw [decide_eq_true_eq]
      have h0 : (0 : ℚ) ≤ (skill : ℚ) := by exact_mod_cast hskill
      have h3 : (0 : ℚ) ≤ (skill : ℚ) / 3 := by positivity
      push_cast
      linarith
    unfold forage at hfail ⊢
    unfold ForagingResult.totalGained
    simp only [hcan, reduceIte] at hfail ⊢
    dsimp only at hfail ⊢
    by_cases hft : ft = ForagingType.water
    · simp only [if_pos hft] at hfail ⊢
      rw [hS, hfail]
      simp
    · simp only [if_neg hft] at hfail ⊢
      rw [hS, hfail]
      simp
  · intro w m skill tools weather d hcan
    unfold fish
    rw [if_pos hcan]
    rfl

/-- Witness for the amended failure-yield statements: a failed forest deer
hunt yields 0; a failed berry forage in a summer forest yields the 30%
fraction; and line fishing in available water reaches the failed lookup. -/
theorem failure_yield_amended_witness :
    (2 ≤ (10 : Int) ∧
      (hunt "plains" "cloudy" 50 0 10 HuntingStyle.normal 0 c2HuntDrawsFail).success
        = false ∧
      (hunt "plains" "cloudy" 50 0 10 HuntingStyle.normal 0 c2HuntDrawsFail).foodGained
        = 0) ∧
    (canForage "forest" ForagingType.berries = true ∧
      (forage "forest" "clear" "summer" ForagingType.berries 50 1
        { baseAmount := 10, successRoll := 100 }).success = false ∧
      (forage "forest" "clear" "summer" ForagingType.berries 50 1
        { baseAmount := 10, successRoll := 100 }).totalGained =
        truncQ (((forage "forest" "clear" "summer" ForagingType.berries 50 1
          { baseAmount := 10, successRoll := 1 }).totalGained : ℚ) * (3/10))) ∧
    (canFish true true FishingMethod.line = true ∧
      fish true FishingMethod.line 50 true "clear"
        { baseAmount := 5, successRoll := 50, breakRoll := false } = none) := by
  have hhunt : (hunt "plains" "cloudy" 50 0 10 HuntingStyle.normal 0
      c2HuntDrawsFail).success = false := by
    unfold hunt c2HuntDrawsFail calculateSuccessChance animalDifficulty terrainHuntingMod
      weatherHuntingMod styleSuccessMod
    simp only [String.reduceEq, reduceIte, reduceCtorEq]
    norm_num
  have hforage : (forage "forest" "clear" "summer" ForagingType.berries 50 1
      { baseAmount := 10, successRoll := 100 }).success = false := by
    unfold forage canForage foragingYields weatherForagingModifier
      seasonForagingModifier foragingTypeValue
    simp only [String.reduceEq, reduceIte, reduceCtorEq]
    norm_num
  refine ⟨⟨by norm_num, hhunt, ?_⟩, ⟨by decide, hforage, ?_⟩, ⟨by decide, ?_⟩⟩
  · exact failure_yield_amended.1 "plains" "cloudy" 50 0 10 HuntingStyle.normal 0
      c2HuntDrawsFail GameAnimal.deer (by norm_num) (by decide) hhunt
  · exact failure_yield_amended.2.1 "forest" "clear" "summer" ForagingType.berries 50 1
      { baseAmount := 10, successRoll := 100 } (by decide) (by norm_num) hforage
  · exact failure_yield_amended.2.2 true FishingMethod.line 50 true "clear"
      { baseAmount := 5, successRoll := 50, breakRoll := false } (by decide)

end GDT
